import Mathlib

/-!
Shallow embedding of the two engines of the eventflow status-page backend:

* the status aggregation engine, `backend/app/api/status.py`
  (`compute_component_status`, `compute_global_status`);
* the external-incident reconciliation engine,
  `backend/app/services/pagerduty.py` (`sync_pagerduty_incidents`) together
  with the manual-sync endpoint of `backend/app/api/datasources.py`
  (`sync_datasource`, `SyncResult`).

Python objects become Lean structures; SQLAlchemy rows become entries of
explicit lists carried in a state record; dictionary access `d["k"]` on a
provider record becomes an `Except` value that errors exactly when the key
is absent (Python raises `KeyError`); early `return` inside the Python
`for` loops becomes structural recursion returning as soon as the source
returns.  Timestamps are kept abstract as the strings the source parses
(`datetime.fromisoformat(s.replace("Z", "+00:00"))` is modelled by the
`String.replace`, which determines the parsed datetime), and wall-clock
instants (`datetime.now`) are an abstract `Nat` tick supplied as input.
-/

/-! ### Enumerations, from `backend/app/models/models.py` -/

/-- `Impact` (models.py): impact of an incident on one component. -/
inductive Impact where
  | degraded
  | outage
deriving DecidableEq

/-- `ComponentStatus` (models.py). -/
inductive ComponentStatus where
  | operational
  | degraded
  | partial_outage
  | major_outage
  | maintenance
deriving DecidableEq

/-- `Severity` (models.py). -/
inductive Severity where
  | critical
  | major
  | minor
  | none_sev
deriving DecidableEq

/-- `IncidentStatus` (models.py). -/
inductive IncidentStatus where
  | investigating
  | identified
  | monitoring
  | resolved
deriving DecidableEq

/-! ### Input rows for status aggregation, `backend/app/api/status.py`

`compute_component_status` receives ORM rows; only the fields it reads are
modelled.  Component ids are abstract `Nat`s. -/

/-- An `IncidentComponent` link row: the fields read by
`compute_component_status` (`component_id`, `impact`). -/
structure IncidentComponent where
  component_id : Nat
  impact : Impact
deriving DecidableEq

/-- An unresolved `Incident` row as seen by `compute_component_status`:
only its `incident_components` collection is read. -/
structure ActiveIncident where
  incident_components : List IncidentComponent
deriving DecidableEq

/-- A `MaintenanceComponent` link row: only `component_id` is read. -/
structure MaintenanceComponent where
  component_id : Nat
deriving DecidableEq

/-- An in-progress `MaintenanceWindow` row as seen by
`compute_component_status`: only `maintenance_components` is read. -/
structure ActiveMaintenance where
  maintenance_components : List MaintenanceComponent
deriving DecidableEq

/-- The inner `for ic in incident.incident_components` loop of
`compute_component_status` (status.py lines 31-36): the first link whose
`component_id` matches decides; `outage` gives MAJOR_OUTAGE, `degraded`
gives DEGRADED; `none` means the loop fell through. -/
def scanIncidentLinks (component_id : Nat) :
    List IncidentComponent → Option ComponentStatus
  | [] => none
  | ic :: rest =>
    if ic.component_id = component_id then
      match ic.impact with
      | Impact.outage => some ComponentStatus.major_outage
      | Impact.degraded => some ComponentStatus.degraded
    else scanIncidentLinks component_id rest

/-- The outer `for incident in active_incidents` loop of
`compute_component_status` (status.py lines 30-36). -/
def scanActiveIncidents (component_id : Nat) :
    List ActiveIncident → Option ComponentStatus
  | [] => none
  | inc :: rest =>
    match scanIncidentLinks component_id inc.incident_components with
    | some s => some s
    | none => scanActiveIncidents component_id rest

/-- `for mc in maint.maintenance_components: if mc.component_id == component_id`
(status.py lines 39-42). -/
def maintenanceTouches (component_id : Nat) (m : ActiveMaintenance) : Bool :=
  m.maintenance_components.any (fun mc => mc.component_id == component_id)

/-- `compute_component_status` (status.py lines 23-44). -/
def compute_component_status (component_id : Nat)
    (active_incidents : List ActiveIncident)
    (active_maintenance : List ActiveMaintenance) : ComponentStatus :=
  match scanActiveIncidents component_id active_incidents with
  | some s => s
  | none =>
    if active_maintenance.any (maintenanceTouches component_id) then
      ComponentStatus.maintenance
    else
      ComponentStatus.operational

/-- `ComponentStatusInfo` as consumed by `compute_global_status`: only
`status` and `tier` are read.  Tier is validated to 0..3 by the API schema
(schemas.py, `ge=0, le=3`), hence a `Nat`. -/
structure ComponentStatusInfo where
  status : ComponentStatus
  tier : Nat
deriving DecidableEq

/-- `GroupStatusInfo` as consumed by `compute_global_status`: only
`components` is read. -/
structure GroupStatusInfo where
  components : List ComponentStatusInfo
deriving DecidableEq

/-- The loop body of `compute_global_status` (status.py lines 53-68) over
the flattened component list, carrying the `has_outage` / `has_partial` /
`has_degraded` accumulators; a tier ≤ 1 MAJOR_OUTAGE returns immediately. -/
def globalStatusLoop :
    List ComponentStatusInfo → Bool → Bool → Bool → ComponentStatus
  | [], hOutage, hPartial, hDegraded =>
    if hOutage then ComponentStatus.partial_outage
    else if hPartial || hDegraded then ComponentStatus.degraded
    else ComponentStatus.operational
  | c :: rest, hOutage, hPartial, hDegraded =>
    if c.status = ComponentStatus.major_outage then
      if c.tier ≤ 1 then ComponentStatus.major_outage
      else globalStatusLoop rest true hPartial hDegraded
    else if c.status = ComponentStatus.partial_outage then
      globalStatusLoop rest hOutage true hDegraded
    else if c.status = ComponentStatus.degraded then
      globalStatusLoop rest hOutage hPartial true
    else globalStatusLoop rest hOutage hPartial hDegraded

/-- All components of all groups in iteration order
(`for group in groups: for component in group.components`). -/
def allComponents (groups : List GroupStatusInfo) : List ComponentStatusInfo :=
  (groups.map (fun g => g.components)).flatten

/-- `compute_global_status` (status.py lines 47-68). -/
def compute_global_status (groups : List GroupStatusInfo) : ComponentStatus :=
  globalStatusLoop (allComponents groups) false false false

/-! ### Provider records and field access, `backend/app/services/pagerduty.py`

A PagerDuty incident arrives as a JSON dictionary.  The sync code reads the
keys `id`, `title`, `urgency`, `status`, `created_at`, `resolved_at`,
`html_url`; a key may be absent (a malformed record), so each field is an
`Option`.  `d["k"]` raises `KeyError` on an absent key, modelled by
`getRequired`; `d.get("k")` / `d.get("k", default)` never raise. -/

/-- A provider-native incident record; `none` in a field means the key is
absent from the JSON dictionary. -/
structure PDRecord where
  id : Option String
  title : Option String
  urgency : Option String
  status : Option String
  created_at : Option String
  resolved_at : Option String
  html_url : Option String
deriving DecidableEq

/-- Python `d["k"]`: the value, or `KeyError` (whose `str` is the quoted
key) when absent. -/
def getRequired (v : Option String) (key : String) : Except String String :=
  match v with
  | some s => Except.ok s
  | none => Except.error ("KeyError: " ++ key)

/-- `s.replace("Z", "+00:00")` character by character - the pattern is the
single character `Z`, so replacing each occurrence of the character is
exactly the substring replacement Python performs. -/
def replaceZChars : List Char → List Char
  | [] => []
  | c :: cs =>
    if c = 'Z' then '+' :: '0' :: '0' :: ':' :: '0' :: '0' :: replaceZChars cs
    else c :: replaceZChars cs

/-- `datetime.fromisoformat(s.replace("Z", "+00:00"))` (pagerduty.py): the
parsed datetime is kept abstract as its normalized source text. -/
def fromIso (s : String) : String :=
  String.mk (replaceZChars s.data)

/-- `map_pd_severity` (pagerduty.py lines 84-86). -/
def map_pd_severity (urgency : String) : Severity :=
  if urgency == "high" then Severity.critical else Severity.major

/-- `map_pd_status` (pagerduty.py lines 89-96), with the dictionary
default `INVESTIGATING` for unrecognized values. -/
def map_pd_status (status : String) : IncidentStatus :=
  if status == "triggered" then IncidentStatus.investigating
  else if status == "acknowledged" then IncidentStatus.identified
  else if status == "resolved" then IncidentStatus.resolved
  else IncidentStatus.investigating

/-! ### Canonical storage state

Rows of the `incident` and `external_incident` tables, restricted to the
columns the sync engine reads or writes.  Canonical incident ids are
`Nat`s drawn from a counter (the database assigns fresh primary keys);
row mutation through an ORM object becomes an update of the row with the
matching id (ids are unique: `incident.id` is a primary key and
`external_incident` has the unique index
`idx_external_incident_external_id` on `(datasource_id, external_id)`). -/

/-- An `Incident` row (models.py), the columns touched by sync. -/
structure CanonicalIncident where
  iid : Nat
  title : String
  severity : Severity
  status : IncidentStatus
  started_at : String
  resolved_at : Option String
  source : String
  created_by : String
deriving DecidableEq

/-- An `ExternalIncident` row (models.py lines 317-336). -/
structure ExternalIncident where
  datasource_id : Nat
  external_id : String
  incident_id : Option Nat
  external_url : Option String
  raw_data : PDRecord
  synced_at : Nat
deriving DecidableEq

/-- The sync-relevant columns of a `Datasource` row (models.py). -/
structure Datasource where
  id : Nat
  name : String
  sync_status : String
  sync_error : Option String
  last_sync_at : Option Nat
deriving DecidableEq

/-- The slice of the database the sync engine touches: the canonical
incidents, the external links, and the primary-key counter for new
incidents. -/
structure DBState where
  incidents : List CanonicalIncident
  externals : List ExternalIncident
  nextId : Nat
deriving DecidableEq

/-- The filter `datasource_id == .. AND external_id == ..` of the link
lookup (pagerduty.py lines 140-143 and 194-197). -/
def extKeyMatch (ds_id : Nat) (ext_id : String)
    (e : ExternalIncident) : Bool :=
  e.datasource_id == ds_id && e.external_id == ext_id

/-- The lookup `db.query(ExternalIncident).filter(datasource_id == .. ,
external_id == ..).first()` (pagerduty.py lines 140-143 and 194-197). -/
def findExternal (ds_id : Nat) (ext_id : String)
    (exts : List ExternalIncident) : Option ExternalIncident :=
  exts.find? (extKeyMatch ds_id ext_id)

/-- Mutating the ORM object returned by the lookup: rewrite the row(s)
with that key.  Under the unique index on `(datasource_id, external_id)`
this is the single row `first()` returned. -/
def updateExternal (ds_id : Nat) (ext_id : String)
    (f : ExternalIncident → ExternalIncident)
    (exts : List ExternalIncident) : List ExternalIncident :=
  exts.map (fun e => if extKeyMatch ds_id ext_id e then f e else e)

/-- Mutating `existing.incident`: rewrite the incident row with that
primary key. -/
def updateIncident (iid : Nat) (f : CanonicalIncident → CanonicalIncident)
    (incs : List CanonicalIncident) : List CanonicalIncident :=
  incs.map (fun inc => if inc.iid == iid then f inc else inc)

/-! ### One sync run, `sync_pagerduty_incidents` (pagerduty.py lines 99-226)

The network fetches and the config decryption are inputs of the run (an
`Except` each, error = the exception the call raised); `now` is the
abstract clock tick.  The body's `try`/`except` over both passes is the
`Except` threading below; the `except` branch receives the state reached
so far because every `db.add` / ORM mutation before the failure is still
in the session that the branch's `db.commit()` commits. -/

/-- The decrypted JSON configuration of a datasource:
`api_key` (may be absent or empty - both falsy), `service_ids`, `base_url`. -/
structure SyncConfig where
  api_key : Option String
  service_ids : List String
  base_url : Option String
deriving DecidableEq

/-- The environment of one run: the outcome of
`json.loads(decrypt_secret(datasource.config_encrypted))` and of the two
`client.get_incidents` calls, plus the clock. -/
structure SyncEnv where
  now : Nat
  configResult : Except String SyncConfig
  fetchActive : Except String (List PDRecord)
  fetchResolved : Except String (List PDRecord)

/-- Processing one record of the active fetch (pagerduty.py lines
136-183).  Returns the new state and `true` when the create path ran
(`created += 1`), `false` on the update path (`updated += 1`); an error is
the uncaught exception of the loop body. -/
def processActiveRecord (now : Nat) (ds : Datasource) (st : DBState)
    (r : PDRecord) : Except String (DBState × Bool) :=
  match getRequired r.id "id" with
  | Except.error e => Except.error e
  | Except.ok pd_id =>
    match findExternal ds.id pd_id st.externals with
    | some existing =>
      match existing.incident_id with
      | some iid =>
        match getRequired r.title "title" with
        | Except.error e => Except.error e
        | Except.ok title =>
          match getRequired r.status "status" with
          | Except.error e => Except.error e
          | Except.ok pdStatus =>
            Except.ok
              ({ st with
                 incidents := updateIncident iid (fun inc =>
                   { inc with
                     title := title
                     severity := map_pd_severity (r.urgency.getD "high")
                     status := map_pd_status pdStatus
                     resolved_at :=
                       if pdStatus == "resolved" && r.resolved_at.isSome then
                         (r.resolved_at.map fromIso)
                       else inc.resolved_at }) st.incidents
                 externals := updateExternal ds.id pd_id
                   (fun e => { e with raw_data := r, synced_at := now })
                   st.externals }, false)
      | none =>
        Except.ok
          ({ st with
             externals := updateExternal ds.id pd_id
               (fun e => { e with raw_data := r, synced_at := now })
               st.externals }, false)
    | none =>
      match getRequired r.title "title" with
      | Except.error e => Except.error e
      | Except.ok title =>
        match getRequired r.status "status" with
        | Except.error e => Except.error e
        | Except.ok pdStatus =>
          match getRequired r.created_at "created_at" with
          | Except.error e => Except.error e
          | Except.ok createdAt =>
            Except.ok
              ({ incidents := st.incidents ++
                   [{ iid := st.nextId
                      title := title
                      severity := map_pd_severity (r.urgency.getD "high")
                      status := map_pd_status pdStatus
                      started_at := fromIso createdAt
                      resolved_at := none
                      source := "pagerduty"
                      created_by := "pagerduty:" ++ ds.name }]
                 externals := st.externals ++
                   [{ datasource_id := ds.id
                      external_id := pd_id
                      incident_id := some st.nextId
                      external_url := r.html_url
                      raw_data := r
                      synced_at := now }]
                 nextId := st.nextId + 1 }, true)

/-- The `for pd_incident in incidents` loop of the active pass
(pagerduty.py lines 136-183), threading `created` and `updated`.  On an
exception the loop stops; the error carries the state already reached
(still committed by the `except` branch). -/
def runActivePass (now : Nat) (ds : Datasource) :
    DBState → Nat → Nat → List PDRecord →
    Except (String × DBState) (DBState × Nat × Nat)
  | st, created, updated, [] => Except.ok (st, created, updated)
  | st, created, updated, r :: rest =>
    match processActiveRecord now ds st r with
    | Except.ok (st1, true) => runActivePass now ds st1 (created + 1) updated rest
    | Except.ok (st1, false) => runActivePass now ds st1 created (updated + 1) rest
    | Except.error e => Except.error (e, st)

/-- Processing one record of the resolved fetch (pagerduty.py lines
192-207): update path only, and only when an existing link bound to a
canonical incident is found; otherwise the record is ignored. -/
def processResolvedRecord (now : Nat) (ds : Datasource) (st : DBState)
    (r : PDRecord) : Except String (DBState × Bool) :=
  match getRequired r.id "id" with
  | Except.error e => Except.error e
  | Except.ok pd_id =>
    match findExternal ds.id pd_id st.externals with
    | some existing =>
      match existing.incident_id with
      | some iid =>
        Except.ok
          ({ st with
             incidents := updateIncident iid (fun inc =>
               { inc with
                 status := IncidentStatus.resolved
                 resolved_at :=
                   if r.resolved_at.isSome then (r.resolved_at.map fromIso)
                   else inc.resolved_at }) st.incidents
             externals := updateExternal ds.id pd_id
               (fun e => { e with raw_data := r, synced_at := now })
               st.externals }, true)
      | none => Except.ok (st, false)
    | none => Except.ok (st, false)

/-- The `for pd_incident in resolved_incidents` loop (pagerduty.py lines
192-207), threading `updated`. -/
def runResolvedPass (now : Nat) (ds : Datasource) :
    DBState → Nat → List PDRecord →
    Except (String × DBState) (DBState × Nat)
  | st, updated, [] => Except.ok (st, updated)
  | st, updated, r :: rest =>
    match processResolvedRecord now ds st r with
    | Except.ok (st1, true) => runResolvedPass now ds st1 (updated + 1) rest
    | Except.ok (st1, false) => runResolvedPass now ds st1 updated rest
    | Except.error e => Except.error (e, st)

/-- The dictionary `sync_pagerduty_incidents` returns: each key is
optional because the two early error returns (pagerduty.py lines 111 and
115) contain only `error` - in particular no `success` key. -/
structure SyncRunDict where
  success : Option Bool
  created : Option Nat
  updated : Option Nat
  total_fetched : Option Nat
  error : Option String
deriving DecidableEq

/-- The observable outcome of `sync_pagerduty_incidents`: the committed
database slice, the datasource row, and the returned dictionary. -/
structure SyncOutcome where
  db : DBState
  ds : Datasource
  result : SyncRunDict
deriving DecidableEq

/-- `sync_pagerduty_incidents` (pagerduty.py lines 99-226). -/
def sync_pagerduty_incidents (env : SyncEnv) (ds : Datasource)
    (st : DBState) : SyncOutcome :=
  match env.configResult with
  | Except.error e =>
    { db := st, ds := ds
      result := { success := none, created := none, updated := none,
                  total_fetched := none,
                  error := some ("Invalid config: " ++ e) } }
  | Except.ok config =>
    -- `if not api_key`: absent or empty string, both falsy in Python
    if config.api_key.getD "" == "" then
      { db := st, ds := ds
        result := { success := none, created := none, updated := none,
                    total_fetched := none,
                    error := some "API key not configured" } }
    else
      let ds1 := { ds with sync_status := "syncing" }
      let fail := fun (stAtFailure : DBState) (e : String) =>
        { db := stAtFailure
          ds := { ds1 with sync_status := "error", sync_error := some e }
          result := { success := some false, created := none, updated := none,
                      total_fetched := none, error := some e } }
      match env.fetchActive with
      | Except.error e => fail st e
      | Except.ok incidents =>
        match runActivePass env.now ds1 st 0 0 incidents with
        | Except.error (e, stPartial) => fail stPartial e
        | Except.ok (st1, created, updated) =>
          match env.fetchResolved with
          | Except.error e => fail st1 e
          | Except.ok resolved =>
            match runResolvedPass env.now ds1 st1 updated resolved with
            | Except.error (e, stPartial) => fail stPartial e
            | Except.ok (st2, updated2) =>
              { db := st2
                ds := { ds1 with
                        sync_status := "success"
                        last_sync_at := some env.now
                        sync_error := none }
                result := { success := some true
                            created := some created
                            updated := some updated2
                            total_fetched :=
                              some (incidents.length + resolved.length)
                            error := none } }

/-! ### The manual-sync endpoint, `backend/app/api/datasources.py`

`sync_datasource` (datasources.py lines 266-282) calls
`sync_pagerduty_incidents` and builds `SyncResult(**result)`.  `SyncResult`
(lines 67-72) declares `success: bool` with no default, so pydantic raises
a `ValidationError` - an unhandled exception, turned into a generic 500 by
the app-wide handler of `main.py` - whenever the returned dictionary has
no `success` key. -/

/-- The `SyncResult` pydantic response model (datasources.py lines 67-72):
`success` is required; the other fields default to 0 / `None`. -/
structure SyncResult where
  success : Bool
  created : Nat
  updated : Nat
  total_fetched : Nat
  error : Option String
deriving DecidableEq

/-- Pydantic validation of `SyncResult(**result)`: `none` when the
required `success` key is absent (a `ValidationError` is raised). -/
def validateSyncResult (d : SyncRunDict) : Option SyncResult :=
  match d.success with
  | none => none
  | some b =>
    some { success := b
           created := d.created.getD 0
           updated := d.updated.getD 0
           total_fetched := d.total_fetched.getD 0
           error := d.error }

/-- The body of the `sync_datasource` endpoint for a pagerduty datasource
(datasources.py lines 277-280): run the sync, then `SyncResult(**result)`.
An `error` value is an exception escaping the handler (nothing in the
endpoint catches it). -/
def sync_datasource (env : SyncEnv) (ds : Datasource) (st : DBState) :
    Except String (SyncResult × SyncOutcome) :=
  let o := sync_pagerduty_incidents env ds st
  match validateSyncResult o.result with
  | some r => Except.ok (r, o)
  | none => Except.error "pydantic ValidationError: SyncResult.success field required"

/-! ### Interleaving of two manual sync requests on one datasource

Two HTTP requests to `sync_datasource` for the same datasource run as two
tasks of the same asyncio event loop.  `sync_pagerduty_incidents` commits
`sync_status = "syncing"` (pagerduty.py lines 121-122) and then suspends
at `await client.get_incidents(...)` (line 128), where the loop may run
the other request's handler.  Neither `sync_datasource` (datasources.py
lines 266-282) nor `sync_pagerduty_incidents` consults any lock or guard
before doing so, so a task's transition out of `notStarted` depends on
nothing but its own phase. -/

/-- The phase of one manual-sync task: not yet scheduled; mid-run (it has
committed `sync_status = "syncing"` and is suspended at the fetch
`await`); finished. -/
inductive RunPhase where
  | notStarted
  | midRun
  | finished
deriving DecidableEq

/-- One scheduling step of a task, from the code: entry runs the handler
up to the fetch `await` (committing `"syncing"`) unconditionally - there
is no lock acquisition or status check to block on - and a suspended task
resumed by the loop runs to completion. -/
def advanceRun : RunPhase → RunPhase
  | RunPhase.notStarted => RunPhase.midRun
  | RunPhase.midRun => RunPhase.finished
  | RunPhase.finished => RunPhase.finished

/-- The joint state of two manual-sync requests for the same datasource. -/
structure TwoRequests where
  run1 : RunPhase
  run2 : RunPhase
deriving DecidableEq

/-- The event loop gives the next slice to request 1 (`true`) or
request 2 (`false`); the scheduled task advances regardless of the other
task's phase. -/
def scheduleStep (s : TwoRequests) (who : Bool) : TwoRequests :=
  if who then { s with run1 := advanceRun s.run1 }
  else { s with run2 := advanceRun s.run2 }

/-- Run a whole schedule (a list of slices). -/
def runSchedule (s : TwoRequests) : List Bool → TwoRequests
  | [] => s
  | w :: ws => runSchedule (scheduleStep s w) ws

/-- Both requests are mid-run at once: each has committed
`sync_status = "syncing"` and neither has finished - i.e. two sync runs
for the same datasource are executing concurrently. -/
def bothMidRun (s : TwoRequests) : Bool :=
  s.run1 == RunPhase.midRun && s.run2 == RunPhase.midRun

/-! ### Lemmas about the status aggregation engine -/

/-- A component that triggers the unconditional short-circuit of
`compute_global_status`: MAJOR_OUTAGE with tier 0 or 1. -/
def isTopTierOutage (c : ComponentStatusInfo) : Bool :=
  c.status == ComponentStatus.major_outage && decide (c.tier ≤ 1)

/-- A component counted by the `has_outage` accumulator head test. -/
def isMajorOutage (c : ComponentStatusInfo) : Bool :=
  c.status == ComponentStatus.major_outage

/-- A component counted by `has_partial` or `has_degraded`. -/
def isPartialOrDegraded (c : ComponentStatusInfo) : Bool :=
  c.status == ComponentStatus.partial_outage ||
    c.status == ComponentStatus.degraded

/-- Closed form of the accumulator loop of `compute_global_status`. -/
theorem globalStatusLoop_eq (comps : List ComponentStatusInfo)
    (hO hP hD : Bool) :
    globalStatusLoop comps hO hP hD =
      if comps.any isTopTierOutage then ComponentStatus.major_outage
      else if hO || comps.any isMajorOutage then ComponentStatus.partial_outage
      else if hP || hD || comps.any isPartialOrDegraded then
        ComponentStatus.degraded
      else ComponentStatus.operational := by
  induction comps generalizing hO hP hD with
  | nil => simp [globalStatusLoop]
  | cons c rest ih =>
    by_cases hs1 : c.status = ComponentStatus.major_outage
    · by_cases ht : c.tier ≤ 1
      · simp [globalStatusLoop, hs1, ht, List.any_cons, isTopTierOutage]
      · simp only [globalStatusLoop, hs1, ht, if_true, if_false, ite_true,
          ite_false, List.any_cons, isTopTierOutage, isMajorOutage,
          isPartialOrDegraded, ih, beq_self_eq_true, Bool.true_and,
          decide_eq_true_eq]
        simp [ht, hs1, Bool.or_assoc, Bool.or_comm, isPartialOrDegraded]
    · by_cases hs2 : c.status = ComponentStatus.partial_outage
      · simp only [globalStatusLoop, hs1, hs2, if_false, ite_true, ite_false,
          List.any_cons, isTopTierOutage, isMajorOutage, isPartialOrDegraded,
          ih]
        simp [hs1, hs2, Bool.or_assoc, Bool.or_comm, Bool.or_left_comm]
      · by_cases hs3 : c.status = ComponentStatus.degraded
        · simp only [globalStatusLoop, hs1, hs2, hs3, if_false, ite_true,
            ite_false, List.any_cons, isTopTierOutage, isMajorOutage,
            isPartialOrDegraded, ih]
          simp [hs1, hs2, hs3, Bool.or_assoc, Bool.or_comm, Bool.or_left_comm]
        · simp [globalStatusLoop, hs1, hs2, hs3, List.any_cons,
            isTopTierOutage, isMajorOutage, isPartialOrDegraded, ih]

theorem any_isTopTierOutage_iff (l : List ComponentStatusInfo) :
    l.any isTopTierOutage = true ↔
      ∃ c ∈ l, c.status = ComponentStatus.major_outage ∧
        (c.tier = 0 ∨ c.tier = 1) := by
  simp only [List.any_eq_true, isTopTierOutage, Bool.and_eq_true,
    beq_iff_eq, decide_eq_true_eq, Nat.le_one_iff_eq_zero_or_eq_one]

theorem any_isMajorOutage_iff (l : List ComponentStatusInfo) :
    l.any isMajorOutage = true ↔
      ∃ c ∈ l, c.status = ComponentStatus.major_outage := by
  simp only [List.any_eq_true, isMajorOutage, beq_iff_eq]

theorem any_isPartialOrDegraded_iff (l : List ComponentStatusInfo) :
    l.any isPartialOrDegraded = true ↔
      ∃ c ∈ l, c.status = ComponentStatus.partial_outage ∨
        c.status = ComponentStatus.degraded := by
  simp only [List.any_eq_true, isPartialOrDegraded, Bool.or_eq_true,
    beq_iff_eq]

/-- C2: `compute_global_status` returns MAJOR_OUTAGE iff some tier-0/1
component is MAJOR_OUTAGE; otherwise PARTIAL_OUTAGE iff some tier ≥ 2
component is MAJOR_OUTAGE; otherwise DEGRADED iff some component is
PARTIAL_OUTAGE or DEGRADED; otherwise OPERATIONAL.  Consequently a tier-3
MAJOR_OUTAGE with no tier ≤ 1 outage yields PARTIAL_OUTAGE. -/
theorem compute_global_status_spec (groups : List GroupStatusInfo) :
    (compute_global_status groups = ComponentStatus.major_outage ↔
      ∃ c ∈ allComponents groups,
        c.status = ComponentStatus.major_outage ∧
          (c.tier = 0 ∨ c.tier = 1)) ∧
    (compute_global_status groups ≠ ComponentStatus.major_outage →
      (compute_global_status groups = ComponentStatus.partial_outage ↔
        ∃ c ∈ allComponents groups,
          2 ≤ c.tier ∧ c.status = ComponentStatus.major_outage)) ∧
    (compute_global_status groups ≠ ComponentStatus.major_outage →
      compute_global_status groups ≠ ComponentStatus.partial_outage →
      (compute_global_status groups = ComponentStatus.degraded ↔
        ∃ c ∈ allComponents groups,
          c.status = ComponentStatus.partial_outage ∨
            c.status = ComponentStatus.degraded)) ∧
    (compute_global_status groups ≠ ComponentStatus.major_outage →
      compute_global_status groups ≠ ComponentStatus.partial_outage →
      compute_global_status groups ≠ ComponentStatus.degraded →
      compute_global_status groups = ComponentStatus.operational) ∧
    ((∃ c ∈ allComponents groups,
        c.tier = 3 ∧ c.status = ComponentStatus.major_outage) →
      (∀ c ∈ allComponents groups,
        ¬(c.status = ComponentStatus.major_outage ∧ c.tier ≤ 1)) →
      compute_global_status groups = ComponentStatus.partial_outage) := by
  have hrw := globalStatusLoop_eq (allComponents groups) false false false
  rw [compute_global_status]
  rw [hrw]
  by_cases h1 : (allComponents groups).any isTopTierOutage = true
  · rw [if_pos h1]
    rw [any_isTopTierOutage_iff] at h1
    refine ⟨by simp [h1], ?_, ?_, ?_, ?_⟩
    · intro h; simp at h
    · intro h; simp at h
    · intro h; simp at h
    · intro _ hall
      obtain ⟨c, hc, hs, ht⟩ := h1
      exact absurd (hall c hc) (by simp [hs]; omega)
  · rw [if_neg h1]
    have h1' : ∀ c ∈ allComponents groups,
        c.status = ComponentStatus.major_outage → 2 ≤ c.tier := by
      intro c hc hs
      by_contra hlt
      exact h1 (any_isTopTierOutage_iff _ |>.mpr
        ⟨c, hc, hs, by omega⟩)
    by_cases h2 : (allComponents groups).any isMajorOutage = true
    · rw [if_pos (by simp [h2])]
      rw [any_isMajorOutage_iff] at h2
      obtain ⟨c, hc, hs⟩ := h2
      refine ⟨?_, ?_, ?_, ?_, ?_⟩
      · constructor
        · intro hcontra; cases hcontra
        · rintro ⟨d, hd, hds, hdt⟩
          exact absurd (h1' d hd hds) (by omega)
      · intro _; exact ⟨fun _ => ⟨c, hc, h1' c hc hs, hs⟩, fun _ => rfl⟩
      · intro _ hcontra; exact absurd rfl hcontra
      · intro _ hcontra; exact absurd rfl hcontra
      · intro _ _; rfl
    · rw [if_neg (by simp [h2])]
      have h2' : ∀ c ∈ allComponents groups,
          c.status ≠ ComponentStatus.major_outage := by
        intro c hc hs
        exact h2 (any_isMajorOutage_iff _ |>.mpr ⟨c, hc, hs⟩)
      by_cases h3 : (allComponents groups).any isPartialOrDegraded = true
      · rw [if_pos (by simp [h3])]
        rw [any_isPartialOrDegraded_iff] at h3
        refine ⟨?_, ?_, ?_, ?_, ?_⟩
        · constructor
          · intro hcontra; cases hcontra
          · rintro ⟨d, hd, hds, _⟩; exact absurd hds (h2' d hd)
        · intro _
          constructor
          · intro hcontra; cases hcontra
          · rintro ⟨d, hd, _, hds⟩; exact absurd hds (h2' d hd)
        · intro _ _; exact ⟨fun _ => h3, fun _ => rfl⟩
        · intro _ _ hcontra; exact absurd rfl hcontra
        · rintro ⟨d, hd, _, hds⟩ _; exact absurd hds (h2' d hd)
      · rw [if_neg (by simp [h3])]
        refine ⟨?_, ?_, ?_, ?_, ?_⟩
        · constructor
          · intro hcontra; cases hcontra
          · rintro ⟨d, hd, hds, _⟩; exact absurd hds (h2' d hd)
        · intro _
          constructor
          · intro hcontra; cases hcontra
          · rintro ⟨d, hd, _, hds⟩; exact absurd hds (h2' d hd)
        · intro _ _
          constructor
          · intro hcontra; cases hcontra
          · intro hex
            exact absurd (any_isPartialOrDegraded_iff _ |>.mpr hex) h3
        · intro _ _ _; rfl
        · rintro ⟨d, hd, _, hds⟩ _; exact absurd hds (h2' d hd)

/-- Witness for C2: a lone tier-3 MAJOR_OUTAGE component gives global
PARTIAL_OUTAGE, a lone tier-0 MAJOR_OUTAGE component gives global
MAJOR_OUTAGE. -/
theorem compute_global_status_spec_witness :
    compute_global_status [⟨[⟨ComponentStatus.major_outage, 3⟩]⟩] =
      ComponentStatus.partial_outage ∧
    compute_global_status [⟨[⟨ComponentStatus.major_outage, 0⟩]⟩] =
      ComponentStatus.major_outage := by
  constructor
  · exact (compute_global_status_spec
      [⟨[⟨ComponentStatus.major_outage, 3⟩]⟩]).2.2.2.2
      ⟨⟨ComponentStatus.major_outage, 3⟩, by simp [allComponents],
        rfl, rfl⟩
      (by decide)
  · exact ((compute_global_status_spec
      [⟨[⟨ComponentStatus.major_outage, 0⟩]⟩]).1).mpr
      ⟨⟨ComponentStatus.major_outage, 0⟩, by simp [allComponents],
        rfl, Or.inl rfl⟩

/-- `scanIncidentLinks` only ever produces MAJOR_OUTAGE or DEGRADED. -/
theorem scanIncidentLinks_range (cid : Nat) :
    ∀ links s, scanIncidentLinks cid links = some s →
      s = ComponentStatus.major_outage ∨ s = ComponentStatus.degraded := by
  intro links
  induction links with
  | nil => intro s h; simp [scanIncidentLinks] at h
  | cons ic rest ih =>
    intro s h
    rw [scanIncidentLinks] at h
    by_cases hc : ic.component_id = cid
    · rw [if_pos hc] at h
      cases him : ic.impact <;> rw [him] at h <;> simp at h <;> simp [h]
    · rw [if_neg hc] at h
      exact ih s h

/-- `scanActiveIncidents` only ever produces MAJOR_OUTAGE or DEGRADED. -/
theorem scanActiveIncidents_range (cid : Nat) :
    ∀ incs s, scanActiveIncidents cid incs = some s →
      s = ComponentStatus.major_outage ∨ s = ComponentStatus.degraded := by
  intro incs
  induction incs with
  | nil => intro s h; simp [scanActiveIncidents] at h
  | cons inc rest ih =>
    intro s h
    rw [scanActiveIncidents] at h
    cases hl : scanIncidentLinks cid inc.incident_components with
    | none => rw [hl] at h; exact ih s h
    | some s1 =>
      rw [hl] at h
      simp at h
      subst h
      exact scanIncidentLinks_range cid inc.incident_components s1 hl

/-- C9: `compute_component_status` never returns PARTIAL_OUTAGE, so when
every per-component status comes from it, the `has_partial` accumulator of
`compute_global_status` can never decide the result: the global status is
fully determined without the PARTIAL_OUTAGE case. -/
theorem component_status_never_partial :
    (∀ cid incs maints,
      compute_component_status cid incs maints ≠
        ComponentStatus.partial_outage) ∧
    (∀ groups : List GroupStatusInfo,
      (∀ c ∈ allComponents groups,
        c.status ≠ ComponentStatus.partial_outage) →
      compute_global_status groups =
        if (allComponents groups).any isTopTierOutage then
          ComponentStatus.major_outage
        else if (allComponents groups).any isMajorOutage then
          ComponentStatus.partial_outage
        else if (allComponents groups).any
            (fun c => c.status == ComponentStatus.degraded) then
          ComponentStatus.degraded
        else ComponentStatus.operational) := by
  constructor
  · intro cid incs maints
    rw [compute_component_status]
    cases hs : scanActiveIncidents cid incs with
    | none => split <;> simp_all [ite_eq_iff]
    | some s =>
      rcases scanActiveIncidents_range cid incs s hs with h | h <;>
        simp [h]
  · intro groups hnp
    rw [compute_global_status, globalStatusLoop_eq]
    have hpd : (allComponents groups).any isPartialOrDegraded =
        (allComponents groups).any
          (fun c => c.status == ComponentStatus.degraded) := by
      cases hany : (allComponents groups).any
          (fun c => c.status == ComponentStatus.degraded) with
      | true =>
        rw [List.any_eq_true] at hany
        obtain ⟨c, hc, hcs⟩ := hany
        rw [List.any_eq_true]
        exact ⟨c, hc, by simp [isPartialOrDegraded, hcs]⟩
      | false =>
        rw [List.any_eq_false] at hany
        rw [List.any_eq_false]
        intro c hc hcontra
        rw [isPartialOrDegraded] at hcontra
        simp at hcontra
        rcases hcontra with h | h
        · exact hnp c hc h
        · exact hany c hc (by simp [h])
    rw [hpd]
    simp

/-- Witness for C9: a component with one degraded incident link is
DEGRADED (not PARTIAL_OUTAGE), and for a group holding only that
component the global status is computed without the `has_partial` case. -/
theorem component_status_never_partial_witness :
    compute_component_status 0 [⟨[⟨0, Impact.degraded⟩]⟩] [] ≠
      ComponentStatus.partial_outage ∧
    compute_global_status [⟨[⟨ComponentStatus.degraded, 2⟩]⟩] =
      ComponentStatus.degraded := by
  constructor
  · exact component_status_never_partial.1 0 [⟨[⟨0, Impact.degraded⟩]⟩] []
  · have h := component_status_never_partial.2
      [⟨[⟨ComponentStatus.degraded, 2⟩]⟩] (by decide)
    rw [h]
    decide

/-- C10: `compute_global_status` treats MAINTENANCE (and OPERATIONAL)
components as healthy - when no component is MAJOR_OUTAGE, PARTIAL_OUTAGE
or DEGRADED, the global status is OPERATIONAL, even if every component is
under in-progress maintenance. -/
theorem maintenance_not_surfaced_globally (groups : List GroupStatusInfo)
    (h : ∀ c ∈ allComponents groups,
      c.status ≠ ComponentStatus.major_outage ∧
      c.status ≠ ComponentStatus.partial_outage ∧
      c.status ≠ ComponentStatus.degraded) :
    compute_global_status groups = ComponentStatus.operational := by
  rw [compute_global_status, globalStatusLoop_eq]
  have h1 : (allComponents groups).any isTopTierOutage = false := by
    rw [List.any_eq_false]
    intro c hc hcontra
    rw [isTopTierOutage] at hcontra
    simp at hcontra
    exact (h c hc).1 hcontra.1
  have h2 : (allComponents groups).any isMajorOutage = false := by
    rw [List.any_eq_false]
    intro c hc hcontra
    rw [isMajorOutage] at hcontra
    simp at hcontra
    exact (h c hc).1 hcontra
  have h3 : (allComponents groups).any isPartialOrDegraded = false := by
    rw [List.any_eq_false]
    intro c hc hcontra
    rw [isPartialOrDegraded] at hcontra
    simp at hcontra
    rcases hcontra with hp | hd
    · exact (h c hc).2.1 hp
    · exact (h c hc).2.2 hd
  simp [h1, h2, h3]

/-- Witness for C10: every component under in-progress maintenance, the
global status is still OPERATIONAL. -/
theorem maintenance_not_surfaced_globally_witness :
    compute_global_status
      [⟨[⟨ComponentStatus.maintenance, 0⟩,
         ⟨ComponentStatus.maintenance, 3⟩]⟩,
       ⟨[⟨ComponentStatus.maintenance, 1⟩]⟩] =
      ComponentStatus.operational :=
  maintenance_not_surfaced_globally
    [⟨[⟨ComponentStatus.maintenance, 0⟩,
       ⟨ComponentStatus.maintenance, 3⟩]⟩,
     ⟨[⟨ComponentStatus.maintenance, 1⟩]⟩] (by decide)

/-- Counterexample to C1: component 0 carries a degraded link from one
unresolved incident and an outage link from a later unresolved incident;
`compute_component_status` returns DEGRADED, not the MAJOR_OUTAGE the
claimed precedence requires, because the first matching link decides. -/
theorem compute_component_status_degraded_first_counterexample :
    compute_component_status 0
      [⟨[⟨0, Impact.degraded⟩]⟩, ⟨[⟨0, Impact.outage⟩]⟩] [] =
      ComponentStatus.degraded ∧
    compute_component_status 0
      [⟨[⟨0, Impact.degraded⟩]⟩, ⟨[⟨0, Impact.outage⟩]⟩] [] ≠
      ComponentStatus.major_outage := by
  decide

/-- All incident-component links of all unresolved incidents, in the scan
order of the two nested loops of `compute_component_status`. -/
def allIncidentLinks (incs : List ActiveIncident) : List IncidentComponent :=
  (incs.map (fun i => i.incident_components)).flatten

theorem scanIncidentLinks_eq_find (cid : Nat) (links : List IncidentComponent) :
    scanIncidentLinks cid links =
      (links.find? (fun ic => ic.component_id == cid)).map
        (fun ic =>
          if ic.impact = Impact.outage then ComponentStatus.major_outage
          else ComponentStatus.degraded) := by
  induction links with
  | nil => simp [scanIncidentLinks]
  | cons ic rest ih =>
    rw [scanIncidentLinks]
    by_cases hc : ic.component_id = cid
    · rw [if_pos hc, List.find?_cons_of_pos _ (by simp [hc])]
      cases him : ic.impact <;> simp [him]
    · rw [if_neg hc, List.find?_cons_of_neg _ (by simp [hc]), ih]

theorem scanActiveIncidents_eq_find (cid : Nat) (incs : List ActiveIncident) :
    scanActiveIncidents cid incs =
      ((allIncidentLinks incs).find? (fun ic => ic.component_id == cid)).map
        (fun ic =>
          if ic.impact = Impact.outage then ComponentStatus.major_outage
          else ComponentStatus.degraded) := by
  induction incs with
  | nil => simp [scanActiveIncidents, allIncidentLinks]
  | cons inc rest ih =>
    rw [scanActiveIncidents, scanIncidentLinks_eq_find]
    have hflat : allIncidentLinks (inc :: rest) =
        inc.incident_components ++ allIncidentLinks rest := by
      simp [allIncidentLinks]
    rw [hflat, List.find?_append]
    cases hfind : inc.incident_components.find?
        (fun ic => ic.component_id == cid) with
    | some ic => simp
    | none => simp [ih]

/-- C1 amended: `compute_component_status` is decided by the FIRST link
matching the component in scan order (incidents in fetch order, links in
collection order): MAJOR_OUTAGE when that link's impact is outage,
DEGRADED when it is degraded.  Only when no unresolved incident links the
component does in-progress maintenance give MAINTENANCE, else
OPERATIONAL.  An outage link therefore dominates maintenance, but not a
degraded link encountered earlier in the scan. -/
theorem compute_component_status_first_match (cid : Nat)
    (incs : List ActiveIncident) (maints : List ActiveMaintenance) :
    compute_component_status cid incs maints =
      match (allIncidentLinks incs).find?
          (fun ic => ic.component_id == cid) with
      | some ic =>
        if ic.impact = Impact.outage then ComponentStatus.major_outage
        else ComponentStatus.degraded
      | none =>
        if maints.any (maintenanceTouches cid) then
          ComponentStatus.maintenance
        else ComponentStatus.operational := by
  rw [compute_component_status, scanActiveIncidents_eq_find]
  cases hfind : (allIncidentLinks incs).find?
      (fun ic => ic.component_id == cid) <;> simp

/-- Counterexample to C8: the schedule that runs request 1 up to its fetch
`await` and then grants request 2 a slice leaves both manual sync runs for
the same datasource mid-run at once - the mutual exclusion the claim
asserts does not exist. -/
theorem concurrent_sync_runs_counterexample :
    bothMidRun (runSchedule
      ⟨RunPhase.notStarted, RunPhase.notStarted⟩ [true, false]) = true := by
  decide

/-- C8 amended: no per-datasource mutual exclusion exists.  A slice
granted to the second request advances it regardless of the first
request's phase (nothing in `sync_datasource` or
`sync_pagerduty_incidents` blocks on another run), so two sync runs for
the same datasource can be executing concurrently. -/
theorem sync_no_mutual_exclusion :
    (∀ s : TwoRequests,
      scheduleStep s false = ⟨s.run1, advanceRun s.run2⟩ ∧
      scheduleStep s true = ⟨advanceRun s.run1, s.run2⟩) ∧
    (∃ ws : List Bool,
      bothMidRun (runSchedule
        ⟨RunPhase.notStarted, RunPhase.notStarted⟩ ws) = true) := by
  constructor
  · intro s
    constructor <;> rfl
  · exact ⟨[true, false], by decide⟩

/-- C7 (the code slip): when the stored configuration is undecryptable or
lacks an API key, `sync_pagerduty_incidents` returns a dictionary whose
only key is `error` - no `success` key - so `SyncResult(**result)` in the
manual-sync endpoint raises a pydantic ValidationError (`success` is a
required field): an unhandled exception instead of the structured result
object the claim requires. -/
theorem sync_endpoint_unhandled_exception_on_bad_config :
    (sync_pagerduty_incidents
      ⟨0, Except.error "decryption failed", Except.ok [], Except.ok []⟩
      ⟨1, "pd", "idle", none, none⟩ ⟨[], [], 0⟩).result.success = none ∧
    sync_datasource
      ⟨0, Except.error "decryption failed", Except.ok [], Except.ok []⟩
      ⟨1, "pd", "idle", none, none⟩ ⟨[], [], 0⟩ =
      Except.error
        "pydantic ValidationError: SyncResult.success field required" ∧
    (sync_pagerduty_incidents
      ⟨0, Except.ok ⟨none, [], none⟩, Except.ok [], Except.ok []⟩
      ⟨1, "pd", "idle", none, none⟩ ⟨[], [], 0⟩).result.success = none ∧
    (sync_pagerduty_incidents
      ⟨0, Except.ok ⟨none, [], none⟩, Except.ok [], Except.ok []⟩
      ⟨1, "pd", "idle", none, none⟩ ⟨[], [], 0⟩).result.error =
      some "API key not configured" ∧
    sync_datasource
      ⟨0, Except.ok ⟨none, [], none⟩, Except.ok [], Except.ok []⟩
      ⟨1, "pd", "idle", none, none⟩ ⟨[], [], 0⟩ =
      Except.error
        "pydantic ValidationError: SyncResult.success field required" :=
  ⟨rfl, rfl, rfl, rfl, rfl⟩

/-- C6: after the `syncing` transition, any failing branch of
`sync_pagerduty_incidents` - active fetch error, exception inside the
active loop, resolved fetch error, exception inside the resolved loop -
commits `sync_status = "error"` with `sync_error` set to the message,
leaves `last_sync_at` exactly as it was, and keeps all state reached
before the failure committed (the outcome's database is the state at the
failure point, not a rollback to the initial state). -/
theorem sync_failure_preserves_partial_progress
    (env : SyncEnv) (ds : Datasource) (st : DBState) (config : SyncConfig)
    (hc : env.configResult = Except.ok config)
    (hk : (config.api_key.getD "" == "") = false) :
    (∀ e, env.fetchActive = Except.error e →
      sync_pagerduty_incidents env ds st =
        ⟨st, { ds with sync_status := "error", sync_error := some e },
         ⟨some false, none, none, none, some e⟩⟩) ∧
    (∀ recs e stp, env.fetchActive = Except.ok recs →
      runActivePass env.now { ds with sync_status := "syncing" } st 0 0
          recs = Except.error (e, stp) →
      sync_pagerduty_incidents env ds st =
        ⟨stp, { ds with sync_status := "error", sync_error := some e },
         ⟨some false, none, none, none, some e⟩⟩) ∧
    (∀ recs st1 c u e, env.fetchActive = Except.ok recs →
      runActivePass env.now { ds with sync_status := "syncing" } st 0 0
          recs = Except.ok (st1, c, u) →
      env.fetchResolved = Except.error e →
      sync_pagerduty_incidents env ds st =
        ⟨st1, { ds with sync_status := "error", sync_error := some e },
         ⟨some false, none, none, none, some e⟩⟩) ∧
    (∀ recs st1 c u rrecs e stp, env.fetchActive = Except.ok recs →
      runActivePass env.now { ds with sync_status := "syncing" } st 0 0
          recs = Except.ok (st1, c, u) →
      env.fetchResolved = Except.ok rrecs →
      runResolvedPass env.now { ds with sync_status := "syncing" } st1 u
          rrecs = Except.error (e, stp) →
      sync_pagerduty_incidents env ds st =
        ⟨stp, { ds with sync_status := "error", sync_error := some e },
         ⟨some false, none, none, none, some e⟩⟩) ∧
    (∀ e,
      ({ ds with sync_status := "error", sync_error := some e } :
        Datasource).last_sync_at = ds.last_sync_at) := by
  refine ⟨?_, ?_, ?_, ?_, fun e => rfl⟩
  · intro e he
    simp [sync_pagerduty_incidents, hc, hk, he]
  · intro recs e stp hra hrun
    simp [sync_pagerduty_incidents, hc, hk, hra, hrun]
  · intro recs st1 c u e hra hrun hre
    simp [sync_pagerduty_incidents, hc, hk, hra, hrun, hre]
  · intro recs st1 c u rrecs e stp hra hrun hre hres
    simp [sync_pagerduty_incidents, hc, hk, hra, hrun, hre, hres]

/-- Witness for C6: a network error on the active fetch after a prior
success at tick 3 yields `sync_status = "error"` with the message, an
unchanged database and `last_sync_at` still 3. -/
theorem sync_failure_preserves_partial_progress_witness :
    sync_pagerduty_incidents
      ⟨5, Except.ok ⟨some "k", [], none⟩, Except.error "network timeout",
       Except.ok []⟩
      ⟨1, "pd", "success", none, some 3⟩ ⟨[], [], 0⟩ =
      ⟨⟨[], [], 0⟩,
       ⟨1, "pd", "error", some "network timeout", some 3⟩,
       ⟨some false, none, none, none, some "network timeout"⟩⟩ :=
  (sync_failure_preserves_partial_progress
    ⟨5, Except.ok ⟨some "k", [], none⟩, Except.error "network timeout",
     Except.ok []⟩
    ⟨1, "pd", "success", none, some 3⟩ ⟨[], [], 0⟩
    ⟨some "k", [], none⟩ rfl rfl).1 "network timeout" rfl

/-- Splitting the active-pass loop at any point. -/
theorem runActivePass_append (now : Nat) (ds : Datasource) :
    ∀ (pre : List PDRecord) (st : DBState) (c u : Nat)
      (rest : List PDRecord),
      runActivePass now ds st c u (pre ++ rest) =
        match runActivePass now ds st c u pre with
        | Except.ok (st1, c1, u1) => runActivePass now ds st1 c1 u1 rest
        | Except.error e => Except.error e := by
  intro pre
  induction pre with
  | nil => intro st c u rest; rfl
  | cons r pre ih =>
    intro st c u rest
    rw [List.cons_append, runActivePass, runActivePass]
    cases hp : processActiveRecord now ds st r with
    | ok v =>
      cases v with
      | mk st1 flag => cases flag <;> simp [ih]
    | error e => rfl

/-- Counterexample to C4: a batch of one well-formed record followed by
one malformed record (missing every key, in particular `id`).  The claim
demands the malformed record be skipped and a partial-success result
returned; the run instead fails wholesale: `success = False` and
`sync_status = "error"`. -/
theorem malformed_record_aborts_run_counterexample :
    (sync_pagerduty_incidents
      ⟨0, Except.ok ⟨some "k", [], none⟩,
       Except.ok [⟨some "P1", some "T1", some "high", some "triggered",
                   some "t0", none, none⟩,
                  ⟨none, none, none, none, none, none, none⟩],
       Except.ok []⟩
      ⟨1, "pd", "idle", none, none⟩ ⟨[], [], 0⟩).result.success =
      some false ∧
    (sync_pagerduty_incidents
      ⟨0, Except.ok ⟨some "k", [], none⟩,
       Except.ok [⟨some "P1", some "T1", some "high", some "triggered",
                   some "t0", none, none⟩,
                  ⟨none, none, none, none, none, none, none⟩],
       Except.ok []⟩
      ⟨1, "pd", "idle", none, none⟩ ⟨[], [], 0⟩).ds.sync_status =
      "error" :=
  ⟨rfl, rfl⟩

/-- C4 amended: one malformed record (missing `id`) anywhere in the
active batch aborts the whole run: records before it are processed and
stay committed (the outcome's database is the state after the preceding
prefix), records after it are never processed, and the run ends with
`success = False`, `sync_status = "error"` and the `KeyError` message in
`sync_error` - not a partial-success result. -/
theorem malformed_record_aborts_run
    (env : SyncEnv) (ds : Datasource) (st : DBState) (config : SyncConfig)
    (pre : List PDRecord) (bad : PDRecord) (rest : List PDRecord)
    (st1 : DBState) (c u : Nat)
    (hc : env.configResult = Except.ok config)
    (hk : (config.api_key.getD "" == "") = false)
    (hbad : bad.id = none)
    (hfa : env.fetchActive = Except.ok (pre ++ bad :: rest))
    (hpre : runActivePass env.now { ds with sync_status := "syncing" }
      st 0 0 pre = Except.ok (st1, c, u)) :
    sync_pagerduty_incidents env ds st =
      ⟨st1,
       { ds with sync_status := "error", sync_error := some "KeyError: id" },
       ⟨some false, none, none, none, some "KeyError: id"⟩⟩ := by
  have hbadrec : processActiveRecord env.now
      { ds with sync_status := "syncing" } st1 bad =
      Except.error "KeyError: id" := by
    unfold processActiveRecord
    rw [hbad]
    rfl
  have hfail : runActivePass env.now { ds with sync_status := "syncing" }
      st 0 0 (pre ++ bad :: rest) =
      Except.error ("KeyError: id", st1) := by
    rw [runActivePass_append, hpre]
    show runActivePass env.now { ds with sync_status := "syncing" }
      st1 c u (bad :: rest) = Except.error ("KeyError: id", st1)
    rw [runActivePass, hbadrec]
  simp [sync_pagerduty_incidents, hc, hk, hfa, hfail]

/-- Witness for C4's amended claim: one good record then the malformed
one; the good record's incident and link stay committed while the run
reports the error. -/
theorem malformed_record_aborts_run_witness :
    sync_pagerduty_incidents
      ⟨0, Except.ok ⟨some "k", [], none⟩,
       Except.ok [⟨some "P1", some "T1", some "high", some "triggered",
                   some "t0", none, none⟩,
                  ⟨none, none, none, none, none, none, none⟩],
       Except.ok []⟩
      ⟨1, "pd", "idle", none, none⟩ ⟨[], [], 0⟩ =
      ⟨⟨[⟨0, "T1", Severity.critical, IncidentStatus.investigating, "t0",
          none, "pagerduty", "pagerduty:pd"⟩],
        [⟨1, "P1", some 0, none,
          ⟨some "P1", some "T1", some "high", some "triggered",
           some "t0", none, none⟩, 0⟩], 1⟩,
       ⟨1, "pd", "error", some "KeyError: id", none⟩,
       ⟨some false, none, none, none, some "KeyError: id"⟩⟩ :=
  malformed_record_aborts_run
    ⟨0, Except.ok ⟨some "k", [], none⟩,
     Except.ok [⟨some "P1", some "T1", some "high", some "triggered",
                 some "t0", none, none⟩,
                ⟨none, none, none, none, none, none, none⟩],
     Except.ok []⟩
    ⟨1, "pd", "idle", none, none⟩ ⟨[], [], 0⟩ ⟨some "k", [], none⟩
    [⟨some "P1", some "T1", some "high", some "triggered",
      some "t0", none, none⟩]
    ⟨none, none, none, none, none, none, none⟩ []
    ⟨[⟨0, "T1", Severity.critical, IncidentStatus.investigating, "t0",
       none, "pagerduty", "pagerduty:pd"⟩],
     [⟨1, "P1", some 0, none,
       ⟨some "P1", some "T1", some "high", some "triggered",
        some "t0", none, none⟩, 0⟩], 1⟩
    1 0 rfl rfl rfl rfl (by rfl)

/-! ### The resolved pass creates nothing (C5) -/

/-- `b` is `a` with, at most, its status forced to RESOLVED and its
`resolved_at` refreshed - the only mutation the resolved pass performs. -/
def onlyResolvedChange (a b : CanonicalIncident) : Prop :=
  b = a ∨ (b.status = IncidentStatus.resolved ∧
    b = { a with status := b.status, resolved_at := b.resolved_at })

theorem onlyResolvedChange_refl (a : CanonicalIncident) :
    onlyResolvedChange a a := Or.inl rfl

theorem onlyResolvedChange_trans {a b c : CanonicalIncident} :
    onlyResolvedChange a b → onlyResolvedChange b c →
      onlyResolvedChange a c := by
  rcases a with ⟨a1, a2, a3, a4, a5, a6, a7, a8⟩
  rcases b with ⟨b1, b2, b3, b4, b5, b6, b7, b8⟩
  rcases c with ⟨c1, c2, c3, c4, c5, c6, c7, c8⟩
  rintro (h1 | ⟨hs1, h1⟩) (h2 | ⟨hs2, h2⟩) <;>
    simp_all [onlyResolvedChange, CanonicalIncident.mk.injEq]

theorem forall2_map_pointwise {α : Type} (R : α → α → Prop) (f : α → α)
    (l : List α) (h : ∀ a ∈ l, R a (f a)) :
    List.Forall₂ R l (l.map f) := by
  induction l with
  | nil => simp
  | cons a rest ih =>
    rw [List.map_cons]
    exact List.Forall₂.cons (h a (by simp))
      (ih (fun b hb => h b (by simp [hb])))

theorem forall2_trans_onlyResolved {l1 l2 l3 : List CanonicalIncident} :
    List.Forall₂ onlyResolvedChange l1 l2 →
    List.Forall₂ onlyResolvedChange l2 l3 →
    List.Forall₂ onlyResolvedChange l1 l3 := by
  intro h1 h2
  induction h1 generalizing l3 with
  | nil => cases h2; exact List.Forall₂.nil
  | cons hab h12 ih =>
    cases h2 with
    | cons hbc h23 =>
      exact List.Forall₂.cons (onlyResolvedChange_trans hab hbc) (ih h23)

/-- One resolved record mutates only matched, linked incidents: lengths
and the id counter are untouched, and each incident either stays as it
was or is transitioned to RESOLVED. -/
theorem processResolvedRecord_shape (now : Nat) (ds : Datasource)
    (st : DBState) (r : PDRecord) (st' : DBState) (flag : Bool)
    (h : processResolvedRecord now ds st r = Except.ok (st', flag)) :
    st'.incidents.length = st.incidents.length ∧
    st'.externals.length = st.externals.length ∧
    st'.nextId = st.nextId ∧
    List.Forall₂ onlyResolvedChange st.incidents st'.incidents := by
  unfold processResolvedRecord at h
  cases hid : r.id with
  | none => rw [hid] at h; simp [getRequired] at h
  | some pid =>
    rw [hid] at h
    simp only [getRequired] at h
    cases hfind : findExternal ds.id pid st.externals with
    | none =>
      rw [hfind] at h
      cases h
      exact ⟨rfl, rfl, rfl, List.forall₂_same.mpr
        (fun a _ => onlyResolvedChange_refl a)⟩
    | some existing =>
      rw [hfind] at h
      dsimp only at h
      cases hinc : existing.incident_id with
      | none =>
        rw [hinc] at h
        cases h
        exact ⟨rfl, rfl, rfl, List.forall₂_same.mpr
          (fun a _ => onlyResolvedChange_refl a)⟩
      | some iid =>
        rw [hinc] at h
        cases h
        refine ⟨by simp [updateIncident], by simp [updateExternal], rfl, ?_⟩
        apply forall2_map_pointwise
        intro a _
        by_cases ha : (a.iid == iid) = true
        · rw [if_pos ha]
      
          right
          constructor
          · rfl
          · rfl
        · rw [if_neg ha]
          exact onlyResolvedChange_refl a

/-- The whole resolved pass creates nothing and only resolves. -/
theorem runResolvedPass_shape (now : Nat) (ds : Datasource) :
    ∀ (recs : List PDRecord) (st : DBState) (u : Nat) (st' : DBState)
      (u' : Nat),
      runResolvedPass now ds st u recs = Except.ok (st', u') →
      st'.incidents.length = st.incidents.length ∧
      st'.externals.length = st.externals.length ∧
      st'.nextId = st.nextId ∧
      List.Forall₂ onlyResolvedChange st.incidents st'.incidents := by
  intro recs
  induction recs with
  | nil =>
    intro st u st' u' h
    rw [runResolvedPass] at h
    cases h
    exact ⟨rfl, rfl, rfl, List.forall₂_same.mpr
      (fun a _ => onlyResolvedChange_refl a)⟩
  | cons r rest ih =>
    intro st u st' u' h
    rw [runResolvedPass] at h
    cases hp : processResolvedRecord now ds st r with
    | error e => rw [hp] at h; cases h
    | ok v =>
      rcases v with ⟨st1, flag⟩
      rw [hp] at h
      obtain ⟨hl1, hl2, hl3, hf⟩ :=
        processResolvedRecord_shape now ds st r st1 flag hp
      cases flag with
      | true =>
        obtain ⟨g1, g2, g3, gf⟩ := ih st1 (u + 1) st' u' h
        exact ⟨g1.trans hl1, g2.trans hl2, g3.trans hl3,
          forall2_trans_onlyResolved hf gf⟩
      | false =>
        obtain ⟨g1, g2, g3, gf⟩ := ih st1 u st' u' h
        exact ⟨g1.trans hl1, g2.trans hl2, g3.trans hl3,
          forall2_trans_onlyResolved hf gf⟩

/-- C5: the resolved-incident pass never creates a canonical Incident or
a new ExternalIncidentLink - the incident list, the link list and the
primary-key counter keep their sizes, each incident is at most
transitioned to RESOLVED in place - and a resolved record with no
existing link for `(datasource_id, external_id)` is ignored outright
(state unchanged, nothing counted). -/
theorem resolved_pass_never_creates :
    (∀ (now : Nat) (ds : Datasource) (st : DBState) (u : Nat)
        (recs : List PDRecord) (st' : DBState) (u' : Nat),
      runResolvedPass now ds st u recs = Except.ok (st', u') →
      st'.incidents.length = st.incidents.length ∧
      st'.externals.length = st.externals.length ∧
      st'.nextId = st.nextId ∧
      List.Forall₂ onlyResolvedChange st.incidents st'.incidents) ∧
    (∀ (now : Nat) (ds : Datasource) (st : DBState) (r : PDRecord)
        (pid : String),
      r.id = some pid →
      findExternal ds.id pid st.externals = none →
      processResolvedRecord now ds st r = Except.ok (st, false)) := by
  constructor
  · intro now ds st u recs st' u' h
    exact runResolvedPass_shape now ds recs st u st' u' h
  · intro now ds st r pid hid hfind
    unfold processResolvedRecord
    rw [hid]
    simp only [getRequired]
    rw [hfind]

/-- Witness for C5: a resolved-only record `R1` with no prior link leaves
the store untouched, and a resolved pass over it reports no change. -/
theorem resolved_pass_never_creates_witness :
    processResolvedRecord 0 ⟨1, "pd", "idle", none, none⟩ ⟨[], [], 0⟩
      ⟨some "R1", some "T", none, some "resolved", some "t0", some "t1",
       none⟩ = Except.ok (⟨[], [], 0⟩, false) ∧
    runResolvedPass 0 ⟨1, "pd", "idle", none, none⟩ ⟨[], [], 0⟩ 0
      [⟨some "R1", some "T", none, some "resolved", some "t0", some "t1",
        none⟩] = Except.ok (⟨[], [], 0⟩, 0) ∧
    ([] : List CanonicalIncident).length = 0 := by
  refine ⟨?_, ?_, rfl⟩
  · exact resolved_pass_never_creates.2 0 ⟨1, "pd", "idle", none, none⟩
      ⟨[], [], 0⟩
      ⟨some "R1", some "T", none, some "resolved", some "t0", some "t1",
       none⟩ "R1" rfl rfl
  · have h := resolved_pass_never_creates.2 0 ⟨1, "pd", "idle", none, none⟩
      ⟨[], [], 0⟩
      ⟨some "R1", some "T", none, some "resolved", some "t0", some "t1",
       none⟩ "R1" rfl rfl
    rw [runResolvedPass.eq_def]
    dsimp only
    rw [h]
    rfl

/-! ### Idempotence of reconciliation (C3)

After a successful run, every fetched active record has an
`ExternalIncidentLink` for `(datasource_id, external_id)`; a second run
over the same fetch therefore takes the update path everywhere, creating
nothing.  `recordReady` captures what the update path needs to succeed:
the link exists and, when it is bound to a canonical incident, the
record carries the `title` and `status` keys the update reads. -/

/-- The record will take the update path and succeed: its `id` is
present, a link with its key exists, and when that link is bound to an
incident the fields the update path reads are present. -/
def recordReady (ds_id : Nat) (exts : List ExternalIncident)
    (r : PDRecord) : Prop :=
  ∃ pid, r.id = some pid ∧
    ∃ e, findExternal ds_id pid exts = some e ∧
      (e.incident_id.isSome = true →
        r.title.isSome = true ∧ r.status.isSome = true)

/-- Refreshing `raw_data`/`synced_at` of a link commutes with lookup: the
found link keeps its key and its `incident_id`. -/
theorem findExternal_updateRaw (a c : Nat) (b d : String) (r : PDRecord)
    (n : Nat) (exts : List ExternalIncident) :
    findExternal a b (updateExternal c d
        (fun e => { e with raw_data := r, synced_at := n }) exts) =
      Option.map (fun e =>
          if extKeyMatch c d e then { e with raw_data := r, synced_at := n }
          else e)
        (findExternal a b exts) := by
  unfold findExternal updateExternal
  rw [List.find?_map]
  have hcomp : (extKeyMatch a b ∘ (fun e =>
      if extKeyMatch c d e then { e with raw_data := r, synced_at := n }
      else e)) = extKeyMatch a b := by
    funext e
    by_cases hcd : extKeyMatch c d e = true
    · rw [Function.comp_apply, if_pos hcd]
      rfl
    · rw [Function.comp_apply, if_neg hcd]
  rw [hcomp]

/-- A link found before an append is still the one found after it. -/
theorem findExternal_append_of_found (a : Nat) (b : String)
    (exts more : List ExternalIncident) (e : ExternalIncident)
    (h : findExternal a b exts = some e) :
    findExternal a b (exts ++ more) = some e := by
  unfold findExternal at h ⊢
  rw [List.find?_append, h]
  rfl

/-- Readiness survives a `raw_data`/`synced_at` refresh of any link. -/
theorem recordReady_updateRaw (ds_id c : Nat) (d : String) (r : PDRecord)
    (n : Nat) (exts : List ExternalIncident) (x : PDRecord)
    (hx : recordReady ds_id exts x) :
    recordReady ds_id
      (updateExternal c d
        (fun e => { e with raw_data := r, synced_at := n }) exts) x := by
  obtain ⟨pid, hid, e, hfind, himp⟩ := hx
  refine ⟨pid, hid, ?_⟩
  rw [findExternal_updateRaw, hfind]
  by_cases hcd : extKeyMatch c d e = true
  · refine ⟨{ e with raw_data := r, synced_at := n }, ?_, himp⟩
    show some (if extKeyMatch c d e = true then
      { e with raw_data := r, synced_at := n } else e) =
      some { e with raw_data := r, synced_at := n }
    rw [if_pos hcd]
  · refine ⟨e, ?_, himp⟩
    show some (if extKeyMatch c d e = true then
      { e with raw_data := r, synced_at := n } else e) = some e
    rw [if_neg hcd]

/-- Readiness survives appending new links. -/
theorem recordReady_append (ds_id : Nat)
    (exts more : List ExternalIncident) (x : PDRecord)
    (hx : recordReady ds_id exts x) :
    recordReady ds_id (exts ++ more) x := by
  obtain ⟨pid, hid, e, hfind, himp⟩ := hx
  exact ⟨pid, hid, e, findExternal_append_of_found ds_id pid exts more e
    hfind, himp⟩

/-- A fresh link with the record's key is found after appending it when
the key was previously unlinked. -/
theorem findExternal_append_link (a : Nat) (pid : String)
    (exts : List ExternalIncident) (link : ExternalIncident)
    (h : findExternal a pid exts = none)
    (hmatch : extKeyMatch a pid link = true) :
    findExternal a pid (exts ++ [link]) = some link := by
  unfold findExternal at h ⊢
  rw [List.find?_append, h]
  show List.find? (extKeyMatch a pid) [link] = some link
  rw [List.find?_cons_of_pos _ hmatch]

/-- Inversion of one successful active-record step: either the update
path ran (`flag = false`; the links keep their keys and bindings, the
incident count and id counter are unchanged, and the looked-up link
satisfies the update path's field needs), or the create path ran
(`flag = true`; the key was absent, the fields were present, one incident
and one link were appended). -/
theorem processActiveRecord_inv (now : Nat) (ds : Datasource)
    (st : DBState) (r : PDRecord) (st' : DBState) (flag : Bool)
    (h : processActiveRecord now ds st r = Except.ok (st', flag)) :
    ∃ pid, r.id = some pid ∧
      ((flag = false ∧
        st'.externals = updateExternal ds.id pid
          (fun e => { e with raw_data := r, synced_at := now })
          st.externals ∧
        st'.incidents.length = st.incidents.length ∧
        st'.nextId = st.nextId ∧
        (∃ e, findExternal ds.id pid st.externals = some e ∧
          (e.incident_id.isSome = true →
            r.title.isSome = true ∧ r.status.isSome = true))) ∨
      (flag = true ∧
        findExternal ds.id pid st.externals = none ∧
        r.title.isSome = true ∧ r.status.isSome = true ∧
        st'.externals = st.externals ++
          [{ datasource_id := ds.id, external_id := pid,
             incident_id := some st.nextId, external_url := r.html_url,
             raw_data := r, synced_at := now }] ∧
        st'.incidents.length = st.incidents.length + 1 ∧
        st'.nextId = st.nextId + 1)) := by
  unfold processActiveRecord at h
  cases hid : r.id with
  | none => rw [hid] at h; simp [getRequired] at h
  | some pid =>
    rw [hid] at h
    simp only [getRequired] at h
    refine ⟨pid, rfl, ?_⟩
    cases hfind : findExternal ds.id pid st.externals with
    | some existing =>
      rw [hfind] at h
      dsimp only at h
      cases hinc : existing.incident_id with
      | some iid =>
        rw [hinc] at h
        cases ht : r.title with
        | none => rw [ht] at h; simp [getRequired] at h
        | some t =>
          rw [ht] at h
          simp only [getRequired] at h
          cases hs : r.status with
          | none => rw [hs] at h; simp [getRequired] at h
          | some s =>
            rw [hs] at h
            simp only [getRequired] at h
            cases h
            left
            refine ⟨rfl, rfl, by simp [updateIncident], rfl,
              existing, rfl, fun _ => ⟨rfl, rfl⟩⟩
      | none =>
        rw [hinc] at h
        cases h
        left
        refine ⟨rfl, rfl, rfl, rfl, existing, rfl, fun habs => ?_⟩
        rw [hinc] at habs
        simp at habs
    | none =>
      rw [hfind] at h
      dsimp only at h
      cases ht : r.title with
      | none => rw [ht] at h; simp [getRequired] at h
      | some t =>
        rw [ht] at h
        simp only [getRequired] at h
        cases hs : r.status with
        | none => rw [hs] at h; simp [getRequired] at h
        | some s =>
          rw [hs] at h
          simp only [getRequired] at h
          cases hcr : r.created_at with
          | none => rw [hcr] at h; simp [getRequired] at h
          | some cr =>
            rw [hcr] at h
            simp only [getRequired] at h
            cases h
            right
            exact ⟨rfl, rfl, rfl, rfl, rfl, by simp, rfl⟩

/-- A successful active step keeps every already-ready record ready. -/
theorem processActiveRecord_ready_mono (now : Nat) (ds : Datasource)
    (st : DBState) (r : PDRecord) (st' : DBState) (flag : Bool)
    (h : processActiveRecord now ds st r = Except.ok (st', flag))
    (x : PDRecord) (hx : recordReady ds.id st.externals x) :
    recordReady ds.id st'.externals x := by
  obtain ⟨pid, _, hcase⟩ := processActiveRecord_inv now ds st r st' flag h
  rcases hcase with ⟨_, hext, _⟩ | ⟨_, _, _, _, hext, _⟩
  · rw [hext]
    exact recordReady_updateRaw ds.id ds.id pid r now st.externals x hx
  · rw [hext]
    exact recordReady_append ds.id st.externals _ x hx

/-- A successful active step makes its own record ready: afterwards the
link exists and satisfies what a later update path needs. -/
theorem processActiveRecord_establishes (now : Nat) (ds : Datasource)
    (st : DBState) (r : PDRecord) (st' : DBState) (flag : Bool)
    (h : processActiveRecord now ds st r = Except.ok (st', flag)) :
    recordReady ds.id st'.externals r := by
  obtain ⟨pid, hid, hcase⟩ := processActiveRecord_inv now ds st r st' flag h
  rcases hcase with ⟨_, hext, _, _, e, hfind, himp⟩ |
    ⟨_, hfind, hT, hS, hext, _⟩
  · rw [hext]
    exact recordReady_updateRaw ds.id ds.id pid r now st.externals r
      ⟨pid, hid, e, hfind, himp⟩
  · rw [hext]
    refine ⟨pid, hid,
      { datasource_id := ds.id, external_id := pid,
        incident_id := some st.nextId, external_url := r.html_url,
        raw_data := r, synced_at := now }, ?_, fun _ => ⟨hT, hS⟩⟩
    exact findExternal_append_link ds.id pid st.externals _ hfind
      (by simp [extKeyMatch])

/-- On a ready record the active step takes the update path: no creation,
incident count and id counter unchanged. -/
theorem processActiveRecord_ready_run (now : Nat) (ds : Datasource)
    (st : DBState) (r : PDRecord)
    (hr : recordReady ds.id st.externals r) :
    ∃ st', processActiveRecord now ds st r = Except.ok (st', false) ∧
      st'.incidents.length = st.incidents.length ∧
      st'.nextId = st.nextId := by
  obtain ⟨pid, hid, e, hfind, himp⟩ := hr
  unfold processActiveRecord
  rw [hid]
  simp only [getRequired]
  rw [hfind]
  dsimp only
  cases hinc : e.incident_id with
  | none => exact ⟨_, rfl, rfl, rfl⟩
  | some iid =>
    have hsome : e.incident_id.isSome = true := by rw [hinc]; rfl
    obtain ⟨hT, hS⟩ := himp hsome
    obtain ⟨t, ht⟩ := Option.isSome_iff_exists.mp hT
    obtain ⟨s, hs⟩ := Option.isSome_iff_exists.mp hS
    rw [ht, hs]
    simp only [getRequired]
    exact ⟨_, rfl, by simp [updateIncident], rfl⟩

/-- The active pass keeps ready records ready. -/
theorem runActivePass_ready_mono (now : Nat) (ds : Datasource) :
    ∀ (recs : List PDRecord) (st : DBState) (c u : Nat) (st1 : DBState)
      (c1 u1 : Nat),
      runActivePass now ds st c u recs = Except.ok (st1, c1, u1) →
      ∀ x, recordReady ds.id st.externals x →
        recordReady ds.id st1.externals x := by
  intro recs
  induction recs with
  | nil =>
    intro st c u st1 c1 u1 h x hx
    rw [runActivePass] at h
    cases h
    exact hx
  | cons r rest ih =>
    intro st c u st1 c1 u1 h x hx
    rw [runActivePass] at h
    cases hp : processActiveRecord now ds st r with
    | error e => rw [hp] at h; cases h
    | ok v =>
      rcases v with ⟨st2, flag⟩
      rw [hp] at h
      have hx2 := processActiveRecord_ready_mono now ds st r st2 flag hp
        x hx
      cases flag with
      | true => exact ih st2 (c + 1) u st1 c1 u1 h x hx2
      | false => exact ih st2 c (u + 1) st1 c1 u1 h x hx2

/-- After a successful active pass every processed record is ready in
the final state: its `(datasource_id, external_id)` link exists. -/
theorem runActivePass_establishes (now : Nat) (ds : Datasource) :
    ∀ (recs : List PDRecord) (st : DBState) (c u : Nat) (st1 : DBState)
      (c1 u1 : Nat),
      runActivePass now ds st c u recs = Except.ok (st1, c1, u1) →
      ∀ r ∈ recs, recordReady ds.id st1.externals r := by
  intro recs
  induction recs with
  | nil => intro st c u st1 c1 u1 h r hr; cases hr
  | cons r0 rest ih =>
    intro st c u st1 c1 u1 h r hr
    rw [runActivePass] at h
    cases hp : processActiveRecord now ds st r0 with
    | error e => rw [hp] at h; cases h
    | ok v =>
      rcases v with ⟨st2, flag⟩
      rw [hp] at h
      rcases List.mem_cons.mp hr with hr0 | hrrest
      · subst hr0
        have h0 := processActiveRecord_establishes now ds st r st2 flag hp
        cases flag with
        | true =>
          exact runActivePass_ready_mono now ds rest st2 (c + 1) u st1 c1 u1 h r h0
        | false =>
          exact runActivePass_ready_mono now ds rest st2 c (u + 1) st1 c1 u1 h r h0
      · cases flag with
        | true => exact ih st2 (c + 1) u st1 c1 u1 h r hrrest
        | false => exact ih st2 c (u + 1) st1 c1 u1 h r hrrest

/-- An active pass over only ready records succeeds, creates nothing
(`created` is returned untouched, every record counts as updated) and
leaves the incident count and the id counter unchanged. -/
theorem runActivePass_all_ready (now : Nat) (ds : Datasource) :
    ∀ (recs : List PDRecord) (st : DBState) (c u : Nat),
      (∀ r ∈ recs, recordReady ds.id st.externals r) →
      ∃ st1, runActivePass now ds st c u recs =
          Except.ok (st1, c, u + recs.length) ∧
        st1.incidents.length = st.incidents.length ∧
        st1.nextId = st.nextId := by
  intro recs
  induction recs with
  | nil =>
    intro st c u _
    exact ⟨st, by rw [runActivePass]; rfl, rfl, rfl⟩
  | cons r rest ih =>
    intro st c u hready
    obtain ⟨st2, hp, hlen2, hnext2⟩ :=
      processActiveRecord_ready_run now ds st r
        (hready r (List.mem_cons_self r rest))
    have hready2 : ∀ x ∈ rest, recordReady ds.id st2.externals x :=
      fun x hx => processActiveRecord_ready_mono now ds st r st2 false hp
        x (hready x (List.mem_cons_of_mem r hx))
    obtain ⟨st1, hrest, hlen1, hnext1⟩ := ih st2 c (u + 1) hready2
    refine ⟨st1, ?_, hlen1.trans hlen2, hnext1.trans hnext2⟩
    have hlen : u + 1 + rest.length = u + (r :: rest).length := by
      rw [List.length_cons]
      omega
    rw [runActivePass, hp]
    dsimp only
    rw [hrest, hlen]

/-- A successful resolved step keeps every ready record ready (its only
state change is a `raw_data`/`synced_at` refresh and incident updates). -/
theorem processResolvedRecord_ready_mono (now : Nat) (ds : Datasource)
    (st : DBState) (r : PDRecord) (st' : DBState) (flag : Bool)
    (h : processResolvedRecord now ds st r = Except.ok (st', flag))
    (x : PDRecord) (hx : recordReady ds.id st.externals x) :
    recordReady ds.id st'.externals x := by
  unfold processResolvedRecord at h
  cases hid : r.id with
  | none => rw [hid] at h; simp [getRequired] at h
  | some pid =>
    rw [hid] at h
    simp only [getRequired] at h
    cases hfind : findExternal ds.id pid st.externals with
    | none =>
      rw [hfind] at h
      cases h
      exact hx
    | some existing =>
      rw [hfind] at h
      dsimp only at h
      cases hinc : existing.incident_id with
      | none =>
        rw [hinc] at h
        cases h
        exact hx
      | some iid =>
        rw [hinc] at h
        cases h
        exact recordReady_updateRaw ds.id ds.id pid r now st.externals x hx

/-- The resolved pass keeps ready records ready. -/
theorem runResolvedPass_ready_mono (now : Nat) (ds : Datasource) :
    ∀ (recs : List PDRecord) (st : DBState) (u : Nat) (st1 : DBState)
      (u1 : Nat),
      runResolvedPass now ds st u recs = Except.ok (st1, u1) →
      ∀ x, recordReady ds.id st.externals x →
        recordReady ds.id st1.externals x := by
  intro recs
  induction recs with
  | nil =>
    intro st u st1 u1 h x hx
    rw [runResolvedPass] at h
    cases h
    exact hx
  | cons r rest ih =>
    intro st u st1 u1 h x hx
    rw [runResolvedPass] at h
    cases hp : processResolvedRecord now ds st r with
    | error e => rw [hp] at h; cases h
    | ok v =>
      rcases v with ⟨st2, flag⟩
      rw [hp] at h
      have hx2 := processResolvedRecord_ready_mono now ds st r st2 flag hp
        x hx
      cases flag with
      | true => exact ih st2 (u + 1) st1 u1 h x hx2
      | false => exact ih st2 u st1 u1 h x hx2

/-- Every record a successful resolved pass consumed carries an `id`. -/
theorem runResolvedPass_ids (now : Nat) (ds : Datasource) :
    ∀ (recs : List PDRecord) (st : DBState) (u : Nat) (st1 : DBState)
      (u1 : Nat),
      runResolvedPass now ds st u recs = Except.ok (st1, u1) →
      ∀ r ∈ recs, r.id.isSome = true := by
  intro recs
  induction recs with
  | nil => intro st u st1 u1 h r hr; cases hr
  | cons r0 rest ih =>
    intro st u st1 u1 h r hr
    rw [runResolvedPass] at h
    cases hp : processResolvedRecord now ds st r0 with
    | error e => rw [hp] at h; cases h
    | ok v =>
      rcases v with ⟨st2, flag⟩
      rw [hp] at h
      rcases List.mem_cons.mp hr with hr0 | hrrest
      · subst hr0
        unfold processResolvedRecord at hp
        cases hid : r.id with
        | none => rw [hid] at hp; simp [getRequired] at hp
        | some pid => rfl
      · cases flag with
        | true => exact ih st2 (u + 1) st1 u1 h r hrrest
        | false => exact ih st2 u st1 u1 h r hrrest

/-- A resolved step on a record with an `id` always succeeds. -/
theorem processResolvedRecord_total (now : Nat) (ds : Datasource)
    (st : DBState) (r : PDRecord) (pid : String) (hid : r.id = some pid) :
    ∃ st2 flag, processResolvedRecord now ds st r =
      Except.ok (st2, flag) := by
  unfold processResolvedRecord
  rw [hid]
  simp only [getRequired]
  cases hfind : findExternal ds.id pid st.externals with
  | none => exact ⟨st, false, rfl⟩
  | some existing =>
    dsimp only
    cases hinc : existing.incident_id with
    | none => exact ⟨st, false, rfl⟩
    | some iid => exact ⟨_, true, rfl⟩

/-- A resolved pass whose records all carry an `id` succeeds. -/
theorem runResolvedPass_total (now : Nat) (ds : Datasource) :
    ∀ (recs : List PDRecord) (st : DBState) (u : Nat),
      (∀ r ∈ recs, r.id.isSome = true) →
      ∃ st1 u1, runResolvedPass now ds st u recs =
        Except.ok (st1, u1) := by
  intro recs
  induction recs with
  | nil => intro st u _; exact ⟨st, u, by rw [runResolvedPass]⟩
  | cons r rest ih =>
    intro st u hids
    obtain ⟨pid, hpid⟩ := Option.isSome_iff_exists.mp
      (hids r (List.mem_cons_self r rest))
    obtain ⟨st2, flag, hp⟩ :=
      processResolvedRecord_total now ds st r pid hpid
    have hrest : ∀ x ∈ rest, x.id.isSome = true :=
      fun x hx => hids x (List.mem_cons_of_mem r hx)
    cases flag with
    | true =>
      obtain ⟨st1, u1, hr⟩ := ih st2 (u + 1) hrest
      refine ⟨st1, u1, ?_⟩
      rw [runResolvedPass, hp]
      dsimp only
      exact hr
    | false =>
      obtain ⟨st1, u1, hr⟩ := ih st2 u hrest
      refine ⟨st1, u1, ?_⟩
      rw [runResolvedPass, hp]
      dsimp only
      exact hr

/-- Inversion of a successful run: every stage succeeded and the outcome
is the success outcome built from their results. -/
theorem sync_success_inv (env : SyncEnv) (ds : Datasource) (st : DBState)
    (h : (sync_pagerduty_incidents env ds st).result.success = some true) :
    ∃ config recs rrecs st1 c u st2 u2,
      env.configResult = Except.ok config ∧
      (config.api_key.getD "" == "") = false ∧
      env.fetchActive = Except.ok recs ∧
      runActivePass env.now { ds with sync_status := "syncing" } st 0 0
        recs = Except.ok (st1, c, u) ∧
      env.fetchResolved = Except.ok rrecs ∧
      runResolvedPass env.now { ds with sync_status := "syncing" } st1 u
        rrecs = Except.ok (st2, u2) ∧
      sync_pagerduty_incidents env ds st =
        ⟨st2,
         { ds with
           sync_status := "success"
           last_sync_at := some env.now
           sync_error := none },
         ⟨some true, some c, some u2,
          some (recs.length + rrecs.length), none⟩⟩ := by
  cases hc : env.configResult with
  | error e => simp [sync_pagerduty_incidents, hc] at h
  | ok config =>
    by_cases hk : (config.api_key.getD "" == "") = true
    · simp [sync_pagerduty_incidents, hc, hk] at h
    · rw [Bool.not_eq_true] at hk
      cases ha : env.fetchActive with
      | error e => simp [sync_pagerduty_incidents, hc, hk, ha] at h
      | ok recs =>
        cases hrun : runActivePass env.now
            { ds with sync_status := "syncing" } st 0 0 recs with
        | error ep =>
          rcases ep with ⟨e, stp⟩
          simp [sync_pagerduty_incidents, hc, hk, ha, hrun] at h
        | ok v =>
          rcases v with ⟨st1, c, u⟩
          cases hre : env.fetchResolved with
          | error e =>
            simp [sync_pagerduty_incidents, hc, hk, ha, hrun, hre] at h
          | ok rrecs =>
            cases hres : runResolvedPass env.now
                { ds with sync_status := "syncing" } st1 u rrecs with
            | error ep =>
              rcases ep with ⟨e, stp⟩
              simp [sync_pagerduty_incidents, hc, hk, ha, hrun, hre,
                hres] at h
            | ok w =>
              rcases w with ⟨st2, u2⟩
              refine ⟨config, recs, rrecs, st1, c, u, st2, u2, rfl, hk,
                rfl, hrun, rfl, hres, ?_⟩
              simp [sync_pagerduty_incidents, hc, hk, ha, hrun, hre, hres]

/-- C3: reconciliation is idempotent.  If a run completes successfully,
a second run against the same provider responses and the state the first
run left behind succeeds with `created = 0` - every fetched record finds
its `ExternalIncidentLink` under `(datasource_id, external_id)` and takes
the update path - and the number of canonical incidents does not grow. -/
theorem sync_second_run_idempotent (env : SyncEnv) (ds : Datasource)
    (st : DBState)
    (h1 : (sync_pagerduty_incidents env ds st).result.success =
      some true) :
    (sync_pagerduty_incidents env (sync_pagerduty_incidents env ds st).ds
        (sync_pagerduty_incidents env ds st).db).result.created =
      some 0 ∧
    (sync_pagerduty_incidents env (sync_pagerduty_incidents env ds st).ds
        (sync_pagerduty_incidents env ds st).db).result.success =
      some true ∧
    (sync_pagerduty_incidents env (sync_pagerduty_incidents env ds st).ds
        (sync_pagerduty_incidents env ds st).db).db.incidents.length =
      (sync_pagerduty_incidents env ds st).db.incidents.length := by
  obtain ⟨config, recs, rrecs, st1, c, u, st2, u2, hc, hk, ha, hrun, hre,
    hres, ho1⟩ := sync_success_inv env ds st h1
  rw [ho1]
  dsimp only
  have hready1 : ∀ r ∈ recs, recordReady ds.id st1.externals r :=
    runActivePass_establishes env.now { ds with sync_status := "syncing" }
      recs st 0 0 st1 c u hrun
  have hready2 : ∀ r ∈ recs, recordReady ds.id st2.externals r :=
    fun r hr => runResolvedPass_ready_mono env.now
      { ds with sync_status := "syncing" } rrecs st1 u st2 u2 hres r
      (hready1 r hr)
  obtain ⟨st3, hrun2, hlen3, _⟩ :=
    runActivePass_all_ready env.now
      { { ds with
          sync_status := "success"
          last_sync_at := some env.now
          sync_error := none } with sync_status := "syncing" }
      recs st2 0 0 hready2
  have hids : ∀ r ∈ rrecs, r.id.isSome = true :=
    runResolvedPass_ids env.now { ds with sync_status := "syncing" }
      rrecs st1 u st2 u2 hres
  obtain ⟨st4, u4, hres2⟩ :=
    runResolvedPass_total env.now
      { { ds with
          sync_status := "success"
          last_sync_at := some env.now
          sync_error := none } with sync_status := "syncing" }
      rrecs st3 (0 + recs.length) hids
  obtain ⟨hlen4, _, _, _⟩ :=
    runResolvedPass_shape env.now
      { { ds with
          sync_status := "success"
          last_sync_at := some env.now
          sync_error := none } with sync_status := "syncing" }
      rrecs st3 (0 + recs.length) st4 u4 hres2
  simp only [Nat.zero_add] at hres2
  simp [sync_pagerduty_incidents, hc, hk, ha, hrun2, hre, hres2, hlen4,
    hlen3]

/-- Witness for C3: one active record `P1`; the first run succeeds and
the second run over the same responses reports `created = 0` with the
incident count unchanged. -/
theorem sync_second_run_idempotent_witness :
    (sync_pagerduty_incidents
        ⟨7, Except.ok ⟨some "k", [], none⟩,
         Except.ok [⟨some "P1", some "T1", some "high", some "triggered",
                     some "t0", none, none⟩],
         Except.ok []⟩
        (sync_pagerduty_incidents
          ⟨7, Except.ok ⟨some "k", [], none⟩,
           Except.ok [⟨some "P1", some "T1", some "high", some "triggered",
                       some "t0", none, none⟩],
           Except.ok []⟩
          ⟨1, "pd", "idle", none, none⟩ ⟨[], [], 0⟩).ds
        (sync_pagerduty_incidents
          ⟨7, Except.ok ⟨some "k", [], none⟩,
           Except.ok [⟨some "P1", some "T1", some "high", some "triggered",
                       some "t0", none, none⟩],
           Except.ok []⟩
          ⟨1, "pd", "idle", none, none⟩ ⟨[], [], 0⟩).db).result.created =
      some 0 ∧
    (sync_pagerduty_incidents
        ⟨7, Except.ok ⟨some "k", [], none⟩,
         Except.ok [⟨some "P1", some "T1", some "high", some "triggered",
                     some "t0", none, none⟩],
         Except.ok []⟩
        (sync_pagerduty_incidents
          ⟨7, Except.ok ⟨some "k", [], none⟩,
           Except.ok [⟨some "P1", some "T1", some "high", some "triggered",
                       some "t0", none, none⟩],
           Except.ok []⟩
          ⟨1, "pd", "idle", none, none⟩ ⟨[], [], 0⟩).ds
        (sync_pagerduty_incidents
          ⟨7, Except.ok ⟨some "k", [], none⟩,
           Except.ok [⟨some "P1", some "T1", some "high", some "triggered",
                       some "t0", none, none⟩],
           Except.ok []⟩
          ⟨1, "pd", "idle", none, none⟩ ⟨[], [], 0⟩).db).result.success =
      some true ∧
    (sync_pagerduty_incidents
        ⟨7, Except.ok ⟨some "k", [], none⟩,
         Except.ok [⟨some "P1", some "T1", some "high", some "triggered",
                     some "t0", none, none⟩],
         Except.ok []⟩
        (sync_pagerduty_incidents
          ⟨7, Except.ok ⟨some "k", [], none⟩,
           Except.ok [⟨some "P1", some "T1", some "high", some "triggered",
                       some "t0", none, none⟩],
           Except.ok []⟩
          ⟨1, "pd", "idle", none, none⟩ ⟨[], [], 0⟩).ds
        (sync_pagerduty_incidents
          ⟨7, Except.ok ⟨some "k", [], none⟩,
           Except.ok [⟨some "P1", some "T1", some "high", some "triggered",
                       some "t0", none, none⟩],
           Except.ok []⟩
          ⟨1, "pd", "idle", none, none⟩
          ⟨[], [], 0⟩).db).db.incidents.length =
      (sync_pagerduty_incidents
        ⟨7, Except.ok ⟨some "k", [], none⟩,
         Except.ok [⟨some "P1", some "T1", some "high", some "triggered",
                     some "t0", none, none⟩],
         Except.ok []⟩
        ⟨1, "pd", "idle", none, none⟩ ⟨[], [], 0⟩).db.incidents.length :=
  sync_second_run_idempotent
    ⟨7, Except.ok ⟨some "k", [], none⟩,
     Except.ok [⟨some "P1", some "T1", some "high", some "triggered",
                 some "t0", none, none⟩],
     Except.ok []⟩
    ⟨1, "pd", "idle", none, none⟩ ⟨[], [], 0⟩ rfl
